import Mathlib

/-!
Shallow embedding of the aerostream post-acquisition signal-processing
pipeline (src/src/processing/): the QC engine (`qc_engine.py`), the
despiker (`despiker.py`), the resampler (`resampler.py`) and the aero
coefficient calculator (`aero_metrics.py`).

Numeric values are modelled as exact rationals (ℚ); a NaN / invalid
marker is modelled as `none : Option ℚ`; a Python `raise` is modelled
as `Except.error`.  numpy's sort (used only through `np.median`) is
modelled by an insertion sort: for computing order statistics any
sorting algorithm produces the same list.
-/

namespace Aerostream

/-! ## Shared numeric helpers (numpy / Python builtins) -/

/-- Insertion step of the sort used to model `np.sort`. -/
def insertSorted (x : ℚ) : List ℚ → List ℚ
  | [] => [x]
  | y :: ys => if x ≤ y then x :: y :: ys else y :: insertSorted x ys

/-- Ascending sort of a list of rationals (models `np.sort`). -/
def sortQ (l : List ℚ) : List ℚ := l.foldr insertSorted []

/-- `np.median`: sort; odd length takes the middle element, even length the
mean of the two middle elements.  numpy returns NaN on an empty array; here
the empty case is given the junk value 0 — every use below either guards
non-emptiness or only observes the value through `mad == 0`, where both
conventions produce the same all-false spike mask. -/
def npMedian (l : List ℚ) : ℚ :=
  let s := sortQ l
  let n := l.length
  if n = 0 then 0
  else if n % 2 = 1 then s.getD (n / 2) 0
  else (s.getD (n / 2 - 1) 0 + s.getD (n / 2) 0) / 2

/-- Python `int(x)` on a float: truncation toward zero. -/
def pyInt (x : ℚ) : ℤ := x.num.tdiv x.den

/-- Python's builtin `max` on two numbers (the largest argument).  Defined
by an explicit comparison so that it evaluates inside the kernel; it
agrees with `max` (`pyMax_eq_max` below). -/
def pyMax (a b : ℚ) : ℚ := if a ≤ b then b else a

theorem pyMax_eq_max (a b : ℚ) : pyMax a b = max a b := by
  rw [pyMax, max_def]

/-- `np.linspace a b n` for `n ≥ 0`: `n` evenly spaced points from `a`
to `b` inclusive. -/
def linspaceList (a b : ℚ) : ℕ → List ℚ
  | 0 => []
  | 1 => [a]
  | n + 2 => (List.range (n + 2)).map (fun i => a + (b - a) * i / (n + 1))

/-- `np.linspace` with an integer count: a negative count raises
`ValueError`. -/
def npLinspace (a b : ℚ) (n : ℤ) : Except String (List ℚ) :=
  if n < 0 then .error "ValueError: Number of samples must be non-negative"
  else .ok (linspaceList a b n.toNat)

/-- `np.diff`: consecutive differences. -/
def npDiff : List ℚ → List ℚ
  | [] => []
  | [_] => []
  | a :: b :: rest => (b - a) :: npDiff (b :: rest)

/-- `np.interp x pts`: piecewise-linear interpolation through the sorted
points `pts`, clamping to the end values outside the data range (numpy
does not extrapolate). -/
def npInterp : List (ℚ × ℚ) → ℚ → ℚ
  | [], _ => 0
  | [(_, y)], _ => y
  | (x1, y1) :: (x2, y2) :: rest, x =>
    if x ≤ x1 then y1
    else if x ≤ x2 then y1 + (y2 - y1) * (x - x1) / (x2 - x1)
    else npInterp ((x2, y2) :: rest) x

/-- `scipy.interpolate.interp1d(kind='linear', fill_value='extrapolate')`:
piecewise-linear interpolation that extends the first/last segment beyond
the data range. -/
def sciLinInterp : List (ℚ × ℚ) → ℚ → ℚ
  | [], _ => 0
  | [(_, y)], _ => y
  | (x1, y1) :: (x2, y2) :: rest, x =>
    if x ≤ x2 ∨ rest = [] then y1 + (y2 - y1) * (x - x1) / (x2 - x1)
    else sciLinInterp ((x2, y2) :: rest) x

/-- `scipy.interpolate.interp1d(kind='nearest')`: value of the nearest
data point, ties resolved to the left point. -/
def sciNearestInterp : List (ℚ × ℚ) → ℚ → ℚ
  | [], _ => 0
  | [(_, y)], _ => y
  | (x1, y1) :: (x2, y2) :: rest, x =>
    if x ≤ (x1 + x2) / 2 then y1
    else sciNearestInterp ((x2, y2) :: rest) x

/-! ## QC engine data model (`qc_engine.py`) -/

/-- `QCStatus` — QC check status. -/
inductive QCStatus where
  | pass
  | warn
  | fail
  | skip
deriving DecidableEq, Repr

/-- `QCCheck` — result of a single QC check. -/
structure QCCheck where
  rule_id : ℕ
  rule_name : String
  rule_code : String
  status : QCStatus
  measured_value : Option ℚ
  threshold_warn : Option ℚ
  threshold_fail : Option ℚ
  details : String
  channel_id : Option ℕ := none
deriving DecidableEq, Repr

/-- `QCSummary` — overall QC summary for a run. -/
structure QCSummary where
  overall_status : QCStatus
  checks : List QCCheck := []
  total_checks : ℕ := 0
  passed_checks : ℕ := 0
  warning_checks : ℕ := 0
  failed_checks : ℕ := 0
  skipped_checks : ℕ := 0
  critical_issues : List String := []
  recommendations : List String := []
deriving DecidableEq, Repr

/-- `QCSummary.add_check`: append a check result and update counts; a
failing check's rule code and details are appended to the critical-issue
list. -/
def QCSummary.add_check (s : QCSummary) (check : QCCheck) : QCSummary :=
  let s := { s with checks := s.checks ++ [check], total_checks := s.total_checks + 1 }
  if check.status = .pass then
    { s with passed_checks := s.passed_checks + 1 }
  else if check.status = .warn then
    { s with warning_checks := s.warning_checks + 1 }
  else if check.status = .fail then
    { s with failed_checks := s.failed_checks + 1,
             critical_issues := s.critical_issues ++ [check.rule_code ++ ": " ++ check.details] }
  else
    { s with skipped_checks := s.skipped_checks + 1 }

/-- `QCSummary.finalize`: determine overall status based on checks. -/
def QCSummary.finalize (s : QCSummary) : QCSummary :=
  if s.failed_checks > 0 then { s with overall_status := .fail }
  else if s.warning_checks > 0 then { s with overall_status := .warn }
  else { s with overall_status := .pass }

/-- The fresh summary `run_all_checks` starts from:
`QCSummary(overall_status=QCStatus.PASS)`. -/
def QCSummary.init : QCSummary := { overall_status := .pass }

/-- `QCEngine.DEFAULT_THRESHOLDS` (merged with optional overrides in
`__init__`; all claims below exercise the defaults). -/
structure QCThresholds where
  missing_warn : ℚ := 1
  missing_fail : ℚ := 5
  spike_warn : ℚ := 1 / 2
  spike_fail : ℚ := 2
  stability_warn : ℚ := 5
  stability_fail : ℚ := 10
  flatline_duration : ℚ := 1
deriving DecidableEq, Repr

/-- A `QCEngine` holds its (possibly overridden) threshold table. -/
structure QCEngine where
  thresholds : QCThresholds := {}
deriving DecidableEq, Repr

/-- Numbers are rendered into detail strings through `toString`; the Python
source formats them with f-strings (`:.2f` etc.) — the rendering of the
number is abstracted, the surrounding text is kept verbatim. -/
def fmtQ (x : ℚ) : String := toString x

/-- `QCEngine.check_missing_samples`: percentage of missing samples against
the `missing_warn` / `missing_fail` thresholds (boundary-inclusive `>=`
comparisons); an expected count of 0 yields Skip. -/
def QCEngine.check_missing_samples (e : QCEngine) (expected_count actual_count : ℤ) : QCCheck :=
  if expected_count = 0 then
    { rule_id := 1, rule_name := "Missing Data Check", rule_code := "MISS-DATA",
      status := .skip, measured_value := none,
      threshold_warn := some e.thresholds.missing_warn,
      threshold_fail := some e.thresholds.missing_fail,
      details := "No expected count provided" }
  else
    let missing_pct : ℚ := 100 * ((expected_count : ℚ) - (actual_count : ℚ)) / (expected_count : ℚ)
    let missing_pct := pyMax 0 missing_pct
    let (status, details) :=
      if missing_pct ≥ e.thresholds.missing_fail then
        (QCStatus.fail, fmtQ missing_pct ++ "% samples missing - data may be unusable")
      else if missing_pct ≥ e.thresholds.missing_warn then
        (QCStatus.warn, fmtQ missing_pct ++ "% samples missing - verify data quality")
      else
        (QCStatus.pass, fmtQ missing_pct ++ "% samples missing - within tolerance")
    { rule_id := 1, rule_name := "Missing Data Check", rule_code := "MISS-DATA",
      status := status, measured_value := some missing_pct,
      threshold_warn := some e.thresholds.missing_warn,
      threshold_fail := some e.thresholds.missing_fail,
      details := details }

/-- `QCEngine.check_spikes`: spike percentage against the `spike_warn` /
`spike_fail` thresholds; 0 samples yields Skip. -/
def QCEngine.check_spikes (e : QCEngine) (spike_count total_samples : ℕ)
    (channel_id : Option ℕ := none) : QCCheck :=
  if total_samples = 0 then
    { rule_id := 2, rule_name := "Spike Detection", rule_code := "SPIKE-DET",
      status := .skip, measured_value := none,
      threshold_warn := some e.thresholds.spike_warn,
      threshold_fail := some e.thresholds.spike_fail,
      details := "No samples to check", channel_id := channel_id }
  else
    let spike_pct : ℚ := 100 * (spike_count : ℚ) / (total_samples : ℚ)
    let (status, details) :=
      if spike_pct ≥ e.thresholds.spike_fail then
        (QCStatus.fail, fmtQ spike_pct ++ "% spikes detected (" ++ toString spike_count
          ++ " samples) - sensor issue")
      else if spike_pct ≥ e.thresholds.spike_warn then
        (QCStatus.warn, fmtQ spike_pct ++ "% spikes detected - review sensor calibration")
      else
        (QCStatus.pass, fmtQ spike_pct ++ "% spikes detected - within tolerance")
    { rule_id := 2, rule_name := "Spike Detection", rule_code := "SPIKE-DET",
      status := status, measured_value := some spike_pct,
      threshold_warn := some e.thresholds.spike_warn,
      threshold_fail := some e.thresholds.spike_fail,
      details := details, channel_id := channel_id }

/-- Longest run of `true` in a list (the `max_run` loop of
`check_flatline`). -/
def maxRunTrue (l : List Bool) : ℕ :=
  (l.foldl (fun (acc : ℕ × ℕ) b =>
      if b then (Nat.max acc.1 (acc.2 + 1), acc.2 + 1) else (acc.1, 0))
    (0, 0)).1

/-- `QCEngine.check_flatline`: longest run of (near-)identical consecutive
values times the median sample interval, failing at
`flatline_duration`; fewer than 10 values yields Skip. -/
def QCEngine.check_flatline (e : QCEngine) (timestamps values : List ℚ)
    (channel_id : Option ℕ := none) : QCCheck :=
  if values.length < 10 then
    { rule_id := 3, rule_name := "Flatline Detection", rule_code := "FLAT-DET",
      status := .skip, measured_value := none, threshold_warn := none,
      threshold_fail := some e.thresholds.flatline_duration,
      details := "Insufficient data for flatline check", channel_id := channel_id }
  else
    let diff := npDiff values
    let is_constant := diff.map (fun d => decide (|d| < 1 / 10 ^ 10))
    let max_run := maxRunTrue is_constant
    let max_duration : ℚ :=
      if timestamps.length > 1 then (max_run : ℚ) * npMedian (npDiff timestamps) else 0
    let threshold := e.thresholds.flatline_duration
    let (status, details) :=
      if max_duration ≥ threshold then
        (QCStatus.fail, "Flatline detected: " ++ fmtQ max_duration
          ++ "s of constant value - sensor failure")
      else
        (QCStatus.pass, "No significant flatlines detected (max: " ++ fmtQ max_duration ++ "s)")
    { rule_id := 3, rule_name := "Flatline Detection", rule_code := "FLAT-DET",
      status := status, measured_value := some max_duration, threshold_warn := none,
      threshold_fail := some threshold, details := details, channel_id := channel_id }

/-- `QCEngine.check_timestamp_gaps`: count of inter-sample intervals larger
than twice the expected spacing; more than 5 fails, 1–5 warns; fewer than
2 timestamps yields Skip. -/
def QCEngine.check_timestamp_gaps (_e : QCEngine) (timestamps : List ℚ)
    (expected_dt : ℚ) : QCCheck :=
  if timestamps.length < 2 then
    { rule_id := 4, rule_name := "Timestamp Gaps", rule_code := "TS-GAP",
      status := .skip, measured_value := none, threshold_warn := none,
      threshold_fail := none, details := "Insufficient timestamps for gap check" }
  else
    let dt := npDiff timestamps
    let gap_threshold := expected_dt * 2
    let gaps := dt.filter (fun d => decide (d > gap_threshold))
    let num_gaps := gaps.length
    let (status, details) :=
      if num_gaps > 5 then
        (QCStatus.fail, toString num_gaps ++ " gaps found (max: "
          ++ fmtQ ((gaps.max?).getD 0) ++ "s) - check network/DAQ")
      else if num_gaps > 0 then
        (QCStatus.warn, toString num_gaps ++ " gaps found (max: "
          ++ fmtQ ((gaps.max?).getD 0) ++ "s)")
      else
        (QCStatus.pass, "No timestamp gaps detected")
    { rule_id := 4, rule_name := "Timestamp Gaps", rule_code := "TS-GAP",
      status := status, measured_value := some (num_gaps : ℚ),
      threshold_warn := some 1, threshold_fail := some 5, details := details }

/-- Per-channel body of the loop in `run_all_checks` (spike check when a
spike count is recorded for the channel, flatline check, and the
timestamp-gap check once, on the first channel of the dict). -/
def QCEngine.runChannelChecks (e : QCEngine) (firstKey : Option ℕ)
    (spike_counts : Option (List (ℕ × ℕ))) (expected_dt : ℚ)
    (s : QCSummary) (c : ℕ × List ℚ × List ℚ) : QCSummary :=
  let (channel_id, timestamps, values) := c
  let s :=
    match spike_counts with
    | some sc =>
      -- Python: `if spike_counts and channel_id in spike_counts` — an
      -- empty dict is falsy, so both conditions must hold.
      if sc ≠ [] ∧ (sc.lookup channel_id).isSome then
        s.add_check (e.check_spikes ((sc.lookup channel_id).getD 0) values.length channel_id)
      else s
    | none => s
  let s := s.add_check (e.check_flatline timestamps values channel_id)
  if some channel_id = firstKey then
    s.add_check (e.check_timestamp_gaps timestamps expected_dt)
  else s

/-- `QCEngine.run_all_checks`: the missing-samples check, the per-channel
loop, then the recommendation block (two recommendations appended when any
check failed, one more when any warned), then `finalize`. -/
def QCEngine.run_all_checks (e : QCEngine)
    (channel_data : List (ℕ × List ℚ × List ℚ))
    (expected_sample_count actual_sample_count : ℤ)
    (spike_counts : Option (List (ℕ × ℕ)) := none)
    (expected_dt : ℚ := 1 / 1000) : QCSummary :=
  let s := QCSummary.init
  let s := s.add_check (e.check_missing_samples expected_sample_count actual_sample_count)
  let firstKey := (channel_data.head?).map (·.1)
  let s := channel_data.foldl (e.runChannelChecks firstKey spike_counts expected_dt) s
  let s :=
    if s.failed_checks > 0 then
      { s with recommendations := s.recommendations
          ++ ["Review sensor connections and calibration",
              "Consider repeating test if critical data affected"] }
    else s
  let s :=
    if s.warning_checks > 0 then
      { s with recommendations := s.recommendations
          ++ ["Data may require manual review before use"] }
    else s
  s.finalize

/-! ## Despiker (`despiker.py`) -/

/-- `Despiker.MAD_SCALE = 1.4826`. -/
def MAD_SCALE : ℚ := 14826 / 10000

/-- `Despiker.__init__` configuration. -/
structure Despiker where
  threshold : ℚ := 7 / 2
  window_size : Option ℕ := none
  replace_method : String := "interpolate"
deriving DecidableEq, Repr

/-- `DespikeResult` — results from a de-spiking operation.  `cleaned` is
`Option`-valued because the `'nan'` replacement policy writes NaN. -/
structure DespikeResult where
  original : List ℚ
  cleaned : List (Option ℚ)
  spike_mask : List Bool
  spike_count : ℕ
  spike_pct : ℚ
  spike_indices : List ℕ
deriving DecidableEq, Repr

/-- `Despiker.calculate_mad`: `(median x, median |x - median x|)`. -/
def Despiker.calculate_mad (data : List ℚ) : ℚ × ℚ :=
  let median := npMedian data
  let mad := npMedian (data.map (fun x => |x - median|))
  (median, mad)

/-- `Despiker.detect_spikes`, global branch (`window_size is None`): one
median/MAD for the whole array; MAD 0 short-circuits to an all-false
mask. -/
def Despiker.detectGlobal (d : Despiker) (values : List ℚ) : List Bool :=
  let (median, mad) := Despiker.calculate_mad values
  if mad = 0 then List.replicate values.length false
  else
    let lower := median - d.threshold * mad * MAD_SCALE
    let upper := median + d.threshold * mad * MAD_SCALE
    values.map (fun x => decide (x < lower ∨ x > upper))

/-- Body of the rolling-window loop of `detect_spikes` at index `i`:
median/MAD over `values[max(0,i-w//2) : min(n,i+w//2+1)]`; a window with
MAD 0 leaves the index unflagged. -/
def Despiker.windowFlag (d : Despiker) (w : ℕ) (values : List ℚ) (i : ℕ) : Bool :=
  let half := w / 2
  let start := i - half
  let stop := min values.length (i + half + 1)
  let window := (values.drop start).take (stop - start)
  let (median, mad) := Despiker.calculate_mad window
  if mad = 0 then false
  else
    let lower := median - d.threshold * mad * MAD_SCALE
    let upper := median + d.threshold * mad * MAD_SCALE
    decide (values.getD i 0 < lower ∨ values.getD i 0 > upper)

/-- `Despiker.detect_spikes`, rolling-window branch: the window test at
every index. -/
def Despiker.detectWindow (d : Despiker) (w : ℕ) (values : List ℚ) : List Bool :=
  (List.range values.length).map (d.windowFlag w values)

/-- `Despiker.detect_spikes`: dispatch on `window_size`. -/
def Despiker.detect_spikes (d : Despiker) (values : List ℚ) : List Bool :=
  match d.window_size with
  | none => d.detectGlobal values
  | some w => d.detectWindow w values

/-- `Despiker.replace_spikes`: no flagged spike returns a copy untouched
(before the method dispatch); `'nan'` writes the invalid marker,
`'median'` the median of the unflagged values, `'interpolate'`
interpolates flagged points from the unflagged ones (falling back to the
median of all values when fewer than 2 unflagged points remain); any
other method raises `ValueError`.  `timestamps`/`values`/`spike_mask`
are used with equal lengths by `despike`; index alignment is via
`zipWith`. -/
def Despiker.replace_spikes (d : Despiker) (timestamps values : List ℚ)
    (spike_mask : List Bool) : Except String (List (Option ℚ)) :=
  if ¬ spike_mask.any id then .ok (values.map some)
  else if d.replace_method = "nan" then
    .ok (values.zipWith (fun v m => if m then none else some v) spike_mask)
  else if d.replace_method = "median" then
    let good := (values.zip spike_mask).filterMap (fun p => if p.2 then none else some p.1)
    -- np.median of an empty selection is NaN
    let median : Option ℚ := if good.isEmpty then none else some (npMedian good)
    .ok (values.zipWith (fun v m => if m then median else some v) spike_mask)
  else if d.replace_method = "interpolate" then
    let goodPts := ((timestamps.zip values).zip spike_mask).filterMap
      (fun p => if p.2 then none else some p.1)
    if goodPts.length < 2 then
      .ok (values.zipWith (fun v m => if m then some (npMedian values) else some v) spike_mask)
    else
      .ok ((timestamps.zip values).zipWith
        (fun tv m => if m then some (npInterp goodPts tv.1) else some tv.2) spike_mask)
  else .error ("Unknown replace method: " ++ d.replace_method)

/-- `Despiker.despike`: detect, replace, and package statistics. -/
def Despiker.despike (d : Despiker) (timestamps values : List ℚ) :
    Except String DespikeResult := do
  let spike_mask := d.detect_spikes values
  let cleaned ← d.replace_spikes timestamps values spike_mask
  let spike_indices := (List.range spike_mask.length).filter (fun i => spike_mask.getD i false)
  let spike_count := spike_indices.length
  let spike_pct : ℚ := if values.length > 0 then 100 * (spike_count : ℚ) / (values.length : ℚ) else 0
  return { original := values, cleaned := cleaned, spike_mask := spike_mask,
           spike_count := spike_count, spike_pct := spike_pct,
           spike_indices := spike_indices }

/-! ## Resampler (`resampler.py`)

The cubic branch of `resample_channel` delegates to scipy's cubic-spline
kernel; that kernel is external library code whose pointwise values no
claim depends on, so it is passed in as a parameter `cubicKernel` and all
theorems quantify over it. -/

/-- `Resampler.__init__`. -/
structure Resampler where
  target_hz : ℚ := 100
deriving DecidableEq, Repr

/-- `Resampler.resample_channel`: fewer than 2 points pass through
unchanged; otherwise build the target axis with `np.linspace` over
`[t_start, t_end]` (raising if the computed count is negative), then
dispatch on the interpolation method — an unknown method raises
`ValueError` — and evaluate the chosen kernel on the new axis. -/
def Resampler.resample_channel (r : Resampler)
    (cubicKernel : List (ℚ × ℚ) → ℚ → ℚ)
    (timestamps values : List ℚ) (method : String := "linear") :
    Except String (List ℚ × List ℚ) :=
  if timestamps.length < 2 then .ok (timestamps, values)
  else do
    let t_start := timestamps.getD 0 0
    let t_end := (timestamps.getLast?).getD 0
    let n_samples := pyInt ((t_end - t_start) * r.target_hz) + 1
    let t_new ← npLinspace t_start t_end n_samples
    let pts := timestamps.zip values
    let interp_func ←
      if method = "linear" then .ok (sciLinInterp pts)
      else if method = "cubic" then .ok (cubicKernel pts)
      else if method = "nearest" then .ok (sciNearestInterp pts)
      else .error ("Unknown interpolation method: " ++ method)
    return (t_new, t_new.map interp_func)

/-- `Resampler.align_channels`: empty input yields an empty dataset;
otherwise the common window is `[max of starts, min of ends]`
(`data[0][0]` / `data[0][-1]` raise on an empty channel), the common axis
is built with `np.linspace` (raising if the computed count is negative),
and every channel is linearly re-interpolated onto it
(`interp1d` raises when a channel has fewer than 2 points). -/
def Resampler.align_channels (r : Resampler)
    (resampled_data : List (ℕ × List ℚ × List ℚ)) :
    Except String (List ℚ × List (ℕ × List (Option ℚ))) :=
  if resampled_data.isEmpty then .ok ([], [])
  else do
    let starts ← resampled_data.mapM (fun c =>
      match c.2.1 with
      | [] => Except.error "IndexError: index 0 is out of bounds"
      | t :: _ => Except.ok t)
    let ends ← resampled_data.mapM (fun c =>
      match c.2.1.getLast? with
      | none => Except.error "IndexError: index -1 is out of bounds"
      | some t => Except.ok t)
    let t_start := (starts.max?).getD 0
    let t_end := (ends.min?).getD 0
    let n_samples := pyInt ((t_end - t_start) * r.target_hz) + 1
    let common_time ← npLinspace t_start t_end n_samples
    let aligned ← resampled_data.mapM (fun c =>
      if c.2.1.length < 2 then
        Except.error "ValueError: x and y arrays must have at least 2 entries"
      else
        Except.ok (c.1, common_time.map (fun t => some (sciLinInterp (c.2.1.zip c.2.2) t))))
    return (common_time, aligned)

/-! ## Aero metrics (`aero_metrics.py`)

Channel arrays are `List (Option ℚ)`: `none` is NaN.  numpy comparisons
with NaN are false, so `np.where(x > 0, x, nan)` maps both non-positive
and NaN entries to NaN; arithmetic on NaN propagates NaN. -/

/-- `np.where(x > 0, x, np.nan)` applied pointwise. -/
def wherePos (x : Option ℚ) : Option ℚ :=
  match x with
  | some v => if v > 0 then some v else none
  | none => none

/-- NaN-propagating binary operation. -/
def optOp (f : ℚ → ℚ → ℚ) (a b : Option ℚ) : Option ℚ :=
  match a, b with
  | some x, some y => some (f x y)
  | _, _ => none

/-- `np.nanmean`: mean of the valid entries; all-invalid gives NaN. -/
def nanmean (l : List (Option ℚ)) : Option ℚ :=
  let xs := l.filterMap id
  if xs.isEmpty then none else some (xs.sum / (xs.length : ℚ))

/-- `np.nanvar` (the square of `np.nanstd`): mean squared deviation of
the valid entries from their mean; all-invalid gives NaN.  `np.nanstd`
is its square root, so “std ignores invalid points” is stated through
the variance to stay inside ℚ. -/
def nanvar (l : List (Option ℚ)) : Option ℚ :=
  let xs := l.filterMap id
  if xs.isEmpty then none
  else
    let m := xs.sum / (xs.length : ℚ)
    some ((xs.map (fun x => (x - m) ^ 2)).sum / (xs.length : ℚ))

/-- `AeroCalculator.__init__`. -/
structure AeroCalculator where
  reference_area : ℚ := 1
  wheelbase : ℚ := 18 / 5
  scale_factor : ℚ := 3 / 5
deriving DecidableEq, Repr

/-- `AeroCalculator.calculate_coefficients`: `q·A` filtered to positive
values (`np.where`), then pointwise division. -/
def AeroCalculator.calculate_coefficients (c : AeroCalculator)
    (lift drag side_force dynamic_pressure : List (Option ℚ)) :
    List (Option ℚ) × List (Option ℚ) × List (Option ℚ) :=
  let q_A := dynamic_pressure.map (Option.map (· * c.reference_area))
  let q_A := q_A.map wherePos
  (lift.zipWith (optOp (· / ·)) q_A,
   drag.zipWith (optOp (· / ·)) q_A,
   side_force.zipWith (optOp (· / ·)) q_A)

/-- `AeroCalculator.calculate_moments`: `q·A·L` filtered to positive
values, then pointwise division. -/
def AeroCalculator.calculate_moments (c : AeroCalculator)
    (pitch_moment roll_moment yaw_moment dynamic_pressure : List (Option ℚ)) :
    List (Option ℚ) × List (Option ℚ) × List (Option ℚ) :=
  let q_A_L := dynamic_pressure.map (Option.map (· * c.reference_area * c.wheelbase))
  let q_A_L := q_A_L.map wherePos
  (pitch_moment.zipWith (optOp (· / ·)) q_A_L,
   roll_moment.zipWith (optOp (· / ·)) q_A_L,
   yaw_moment.zipWith (optOp (· / ·)) q_A_L)

/-- `AeroCalculator.calculate_efficiency`: `|Cl| / Cd` with `Cd` filtered
to positive values. -/
def AeroCalculator.calculate_efficiency (_c : AeroCalculator)
    (Cl Cd : List (Option ℚ)) : List (Option ℚ) :=
  let Cd_safe := Cd.map wherePos
  (Cl.map (Option.map abs)).zipWith (optOp (· / ·)) Cd_safe

/-- `AeroCalculator.calculate_aero_balance`: `100·front/(front+rear)` with
the total filtered to positive values. -/
def AeroCalculator.calculate_aero_balance (_c : AeroCalculator)
    (front_downforce rear_downforce : List (Option ℚ)) : List (Option ℚ) :=
  let total := front_downforce.zipWith (optOp (· + ·)) rear_downforce
  let total_safe := total.map wherePos
  (front_downforce.map (Option.map (100 * ·))).zipWith (optOp (· / ·)) total_safe

/-! ## Helper lemmas: `add_check` bookkeeping -/

theorem add_check_failed (s : QCSummary) (c : QCCheck) :
    (s.add_check c).failed_checks
      = s.failed_checks + (if c.status = .fail then 1 else 0) := by
  cases h : c.status <;> simp [QCSummary.add_check, h]

theorem add_check_warning (s : QCSummary) (c : QCCheck) :
    (s.add_check c).warning_checks
      = s.warning_checks + (if c.status = .warn then 1 else 0) := by
  cases h : c.status <;> simp [QCSummary.add_check, h]

theorem add_check_recommendations (s : QCSummary) (c : QCCheck) :
    (s.add_check c).recommendations = s.recommendations := by
  cases h : c.status <;> simp [QCSummary.add_check, h]

theorem add_check_checks (s : QCSummary) (c : QCCheck) :
    (s.add_check c).checks = s.checks ++ [c] := by
  cases h : c.status <;> simp [QCSummary.add_check, h]

theorem add_check_critical (s : QCSummary) (c : QCCheck) :
    (s.add_check c).critical_issues
      = s.critical_issues
        ++ (if c.status = .fail then [c.rule_code ++ ": " ++ c.details] else []) := by
  cases h : c.status <;> simp [QCSummary.add_check, h]

theorem foldl_add_check_failed (cs : List QCCheck) (s : QCSummary) :
    (cs.foldl QCSummary.add_check s).failed_checks
      = s.failed_checks + cs.countP (fun c => c.status == .fail) := by
  induction cs generalizing s with
  | nil => simp
  | cons c cs ih =>
    rw [List.foldl_cons, ih, List.countP_cons, add_check_failed]
    cases h : c.status <;> simp [h] <;> try omega

theorem foldl_add_check_warning (cs : List QCCheck) (s : QCSummary) :
    (cs.foldl QCSummary.add_check s).warning_checks
      = s.warning_checks + cs.countP (fun c => c.status == .warn) := by
  induction cs generalizing s with
  | nil => simp
  | cons c cs ih =>
    rw [List.foldl_cons, ih, List.countP_cons, add_check_warning]
    cases h : c.status <;> simp [h] <;> try omega

/-- C1 — Overall status of a summary built from a list of checks:
`finalize` yields Fail iff some check is Fail, Warn iff none is Fail and
some is Warn, and Pass otherwise; Skip checks never influence the
verdict. -/
theorem overall_status_of_checks (checks : List QCCheck) :
    ((checks.foldl QCSummary.add_check QCSummary.init).finalize.overall_status = .fail
        ↔ ∃ c ∈ checks, c.status = .fail) ∧
    ((checks.foldl QCSummary.add_check QCSummary.init).finalize.overall_status = .warn
        ↔ (¬ ∃ c ∈ checks, c.status = .fail) ∧ ∃ c ∈ checks, c.status = .warn) ∧
    ((checks.foldl QCSummary.add_check QCSummary.init).finalize.overall_status = .pass
        ↔ (¬ ∃ c ∈ checks, c.status = .fail) ∧ ¬ ∃ c ∈ checks, c.status = .warn) := by
  have hf : (checks.foldl QCSummary.add_check QCSummary.init).failed_checks
      = checks.countP (fun c => c.status == .fail) := by
    rw [foldl_add_check_failed]; simp [QCSummary.init]
  have hw : (checks.foldl QCSummary.add_check QCSummary.init).warning_checks
      = checks.countP (fun c => c.status == .warn) := by
    rw [foldl_add_check_warning]; simp [QCSummary.init]
  have hexf : (∃ c ∈ checks, c.status = .fail)
      ↔ 0 < checks.countP (fun c => c.status == .fail) := by
    rw [List.countP_pos_iff]; simp
  have hexw : (∃ c ∈ checks, c.status = .warn)
      ↔ 0 < checks.countP (fun c => c.status == .warn) := by
    rw [List.countP_pos_iff]; simp
  unfold QCSummary.finalize
  rw [hexf, hexw]
  split_ifs with h1 h2 <;>
    simp_all <;> omega

/-- Evaluation of `check_missing_samples` for a nonzero expected count:
the measured value is the clamped missing percentage, and the status is
decided by the boundary-inclusive comparisons against the two
thresholds. -/
theorem check_missing_status (e : QCEngine) (ec ac : ℤ) (h : ec ≠ 0) :
    (e.check_missing_samples ec ac).measured_value
        = some (max 0 (100 * ((ec : ℚ) - (ac : ℚ)) / (ec : ℚ))) ∧
    (e.check_missing_samples ec ac).status
        = (if e.thresholds.missing_fail ≤ max 0 (100 * ((ec : ℚ) - (ac : ℚ)) / (ec : ℚ))
           then QCStatus.fail
           else if e.thresholds.missing_warn ≤ max 0 (100 * ((ec : ℚ) - (ac : ℚ)) / (ec : ℚ))
           then QCStatus.warn
           else QCStatus.pass) := by
  unfold QCEngine.check_missing_samples
  simp only [h, if_false, pyMax_eq_max, ge_iff_le]
  split_ifs <;> simp_all

/-- C6 — `check_missing_samples` at the default thresholds: expected 1000
and actual 950 measure exactly 5 % missing, which equals the default fail
threshold, and the check fails; in general the fail comparison is
boundary-inclusive (`pct ≥ 5` fails) and likewise the warn comparison
(`1 ≤ pct < 5` warns). -/
theorem check_missing_samples_boundary :
    (({} : QCEngine).check_missing_samples 1000 950).measured_value = some 5 ∧
    ({} : QCEngine).thresholds.missing_fail = 5 ∧
    (({} : QCEngine).check_missing_samples 1000 950).status = .fail ∧
    (∀ expected actual : ℤ, 0 < expected →
      ((({} : QCEngine).check_missing_samples expected actual).status = .fail
          ↔ 5 ≤ max 0 (100 * ((expected : ℚ) - (actual : ℚ)) / (expected : ℚ))) ∧
      ((({} : QCEngine).check_missing_samples expected actual).status = .warn
          ↔ 1 ≤ max 0 (100 * ((expected : ℚ) - (actual : ℚ)) / (expected : ℚ))
            ∧ max 0 (100 * ((expected : ℚ) - (actual : ℚ)) / (expected : ℚ)) < 5)) := by
  have hmax : max (0 : ℚ) (100 * ((1000 : ℚ) - (950 : ℚ)) / (1000 : ℚ)) = 5 := by
    norm_num [max_def]
  refine ⟨?_, rfl, ?_, ?_⟩
  · have h := (check_missing_status {} 1000 950 (by norm_num)).1
    rw [h]; push_cast; rw [hmax]
  · have h := (check_missing_status {} 1000 950 (by norm_num)).2
    rw [h]; push_cast; rw [hmax]; norm_num
  · intro expected actual hpos
    have hne : expected ≠ 0 := by omega
    have h := (check_missing_status {} expected actual hne).2
    rw [h]
    have hw : ({} : QCEngine).thresholds.missing_warn = 1 := rfl
    have hf : ({} : QCEngine).thresholds.missing_fail = 5 := rfl
    rw [hw, hf]
    constructor
    · split_ifs with h1 h2
      · exact iff_of_true rfl h1
      · exact iff_of_false (by simp) h1
      · exact iff_of_false (by simp) h1
    · split_ifs with h1 h2
      · exact iff_of_false (by simp) (fun hc => (not_lt.mpr h1) hc.2)
      · exact iff_of_true rfl ⟨h2, not_le.mp h1⟩
      · exact iff_of_false (by simp) (fun hc => h2 hc.1)

/-- Witness for C6: the boundary iff instantiated at expected 1000,
actual 950. -/
theorem check_missing_samples_boundary_witness :
    (({} : QCEngine).check_missing_samples 1000 950).status = .fail
      ↔ 5 ≤ max 0 (100 * (((1000 : ℤ) : ℚ) - ((950 : ℤ) : ℚ)) / ((1000 : ℤ) : ℚ)) :=
  (check_missing_samples_boundary.2.2.2 1000 950 (by norm_num)).1

/-- The detail string recorded for a failing check in the critical-issues
list (the rule code, a colon, the details). -/
def fmtIssue (c : QCCheck) : String := c.rule_code ++ ": " ++ c.details

/-- Bookkeeping invariant maintained by `add_check`: recommendations
untouched, critical issues exactly the failing checks' formatted details,
counters counting statuses. -/
def SummaryInv (s : QCSummary) : Prop :=
  s.recommendations = [] ∧
  s.critical_issues = (s.checks.filter (fun c => c.status == .fail)).map fmtIssue ∧
  s.failed_checks = s.checks.countP (fun c => c.status == .fail) ∧
  s.warning_checks = s.checks.countP (fun c => c.status == .warn)

theorem inv_init : SummaryInv QCSummary.init := by
  simp [SummaryInv, QCSummary.init]

theorem inv_add_check (s : QCSummary) (c : QCCheck) (h : SummaryInv s) :
    SummaryInv (s.add_check c) := by
  obtain ⟨h1, h2, h3, h4⟩ := h
  refine ⟨?_, ?_, ?_, ?_⟩
  · rw [add_check_recommendations]; exact h1
  · rw [add_check_critical, add_check_checks, h2, List.filter_append, List.map_append]
    cases h : c.status <;> simp [h, fmtIssue]
  · rw [add_check_failed, add_check_checks, h3, List.countP_append]
    cases h : c.status <;> simp [h]
  · rw [add_check_warning, add_check_checks, h4, List.countP_append]
    cases h : c.status <;> simp [h]

theorem inv_runChannelChecks (e : QCEngine) (fk : Option ℕ)
    (sc : Option (List (ℕ × ℕ))) (dt : ℚ) (s : QCSummary)
    (c : ℕ × List ℚ × List ℚ) (h : SummaryInv s) :
    SummaryInv (e.runChannelChecks fk sc dt s c) := by
  obtain ⟨cid, ts, vs⟩ := c
  unfold QCEngine.runChannelChecks
  cases sc <;> dsimp only <;> split_ifs <;>
    solve_by_elim [inv_add_check]

theorem inv_foldl (e : QCEngine) (fk : Option ℕ) (sc : Option (List (ℕ × ℕ)))
    (dt : ℚ) (l : List (ℕ × List ℚ × List ℚ)) (s : QCSummary) (h : SummaryInv s) :
    SummaryInv (l.foldl (e.runChannelChecks fk sc dt) s) := by
  induction l generalizing s with
  | nil => exact h
  | cons c l ih => exact ih _ (inv_runChannelChecks _ _ _ _ _ _ h)

theorem finalize_parts (s : QCSummary) :
    s.finalize.recommendations = s.recommendations ∧
    s.finalize.critical_issues = s.critical_issues ∧
    s.finalize.checks = s.checks ∧
    s.finalize.failed_checks = s.failed_checks ∧
    s.finalize.warning_checks = s.warning_checks := by
  unfold QCSummary.finalize
  split_ifs <;> exact ⟨rfl, rfl, rfl, rfl, rfl⟩

/-- The summary that `run_all_checks` finalizes: missing-samples check
then the per-channel fold. -/
def QCEngine.preSummary (e : QCEngine) (channel_data : List (ℕ × List ℚ × List ℚ))
    (expected actual : ℤ) (sc : Option (List (ℕ × ℕ))) (dt : ℚ) : QCSummary :=
  channel_data.foldl (e.runChannelChecks ((channel_data.head?).map (·.1)) sc dt)
    (QCSummary.init.add_check (e.check_missing_samples expected actual))

/-- `run_all_checks` only appends recommendations and finalizes the
pre-summary: checks, critical issues and the two counters carry over,
and the recommendation list is 0/2 entries for failures plus 0/1 for
warnings. -/
theorem run_all_checks_spec (e : QCEngine)
    (channel_data : List (ℕ × List ℚ × List ℚ)) (expected actual : ℤ)
    (sc : Option (List (ℕ × ℕ))) (dt : ℚ) :
    (e.run_all_checks channel_data expected actual sc dt).checks
        = (e.preSummary channel_data expected actual sc dt).checks ∧
    (e.run_all_checks channel_data expected actual sc dt).failed_checks
        = (e.preSummary channel_data expected actual sc dt).failed_checks ∧
    (e.run_all_checks channel_data expected actual sc dt).warning_checks
        = (e.preSummary channel_data expected actual sc dt).warning_checks ∧
    (e.run_all_checks channel_data expected actual sc dt).critical_issues
        = (e.preSummary channel_data expected actual sc dt).critical_issues ∧
    (e.run_all_checks channel_data expected actual sc dt).recommendations
        = (if 0 < (e.preSummary channel_data expected actual sc dt).failed_checks then
            ["Review sensor connections and calibration",
             "Consider repeating test if critical data affected"] else [])
          ++ (if 0 < (e.preSummary channel_data expected actual sc dt).warning_checks then
            ["Data may require manual review before use"] else []) := by
  unfold QCEngine.run_all_checks
  dsimp only
  rw [show channel_data.foldl (e.runChannelChecks ((channel_data.head?).map (·.1)) sc dt)
      (QCSummary.init.add_check (e.check_missing_samples expected actual))
      = e.preSummary channel_data expected actual sc dt from rfl]
  set s2 := e.preSummary channel_data expected actual sc dt with hs2
  have hrec : s2.recommendations = [] :=
    (inv_foldl _ _ _ _ _ _ (inv_add_check _ _ inv_init)).1
  split_ifs with h1 h2 h2 <;>
    simp_all [QCSummary.finalize, hrec] <;>
    (try (split_ifs <;> simp_all))

/-- The pre-summary satisfies the `add_check` bookkeeping invariant. -/
theorem preSummary_inv (e : QCEngine)
    (channel_data : List (ℕ × List ℚ × List ℚ)) (expected actual : ℤ)
    (sc : Option (List (ℕ × ℕ))) (dt : ℚ) :
    SummaryInv (e.preSummary channel_data expected actual sc dt) :=
  inv_foldl _ _ _ _ _ _ (inv_add_check _ _ inv_init)

/-- C7, counterexample — with no channels, expected 1000, actual 950,
`run_all_checks` produces a summary containing a failing check but TWO
recommendations, not the single one the claim asserts. -/
theorem run_all_checks_two_recommendations :
    (∃ c ∈ (({} : QCEngine).run_all_checks [] 1000 950 none (1 / 1000)).checks,
        c.status = .fail) ∧
    (({} : QCEngine).run_all_checks [] 1000 950 none (1 / 1000)).recommendations.length = 2 := by
  have hst : (({} : QCEngine).check_missing_samples 1000 950).status = QCStatus.fail := by
    have h := (check_missing_status {} 1000 950 (by norm_num)).2
    rw [h]; push_cast; norm_num [max_def]
  have hf : (({} : QCEngine).preSummary [] 1000 950 none (1 / 1000)).failed_checks = 1 := by
    show (QCSummary.init.add_check (({} : QCEngine).check_missing_samples 1000 950)).failed_checks = 1
    rw [add_check_failed, hst]; simp [QCSummary.init]
  have hw : (({} : QCEngine).preSummary [] 1000 950 none (1 / 1000)).warning_checks = 0 := by
    show (QCSummary.init.add_check (({} : QCEngine).check_missing_samples 1000 950)).warning_checks = 0
    rw [add_check_warning, hst]; simp [QCSummary.init]
  obtain ⟨hcheck, hfc, hwc, _, hrecs⟩ := run_all_checks_spec {} [] 1000 950 none (1 / 1000)
  constructor
  · have hcount := (preSummary_inv {} [] 1000 950 none (1 / 1000)).2.2.1
    have : 0 < (({} : QCEngine).run_all_checks [] 1000 950 none (1 / 1000)).checks.countP
        (fun c => c.status == .fail) := by
      rw [hcheck, ← hcount, hf]; norm_num
    obtain ⟨c, hc, hcs⟩ := List.countP_pos_iff.mp this
    exact ⟨c, hc, by simpa using hcs⟩
  · rw [hrecs, hf, hw]; norm_num

/-- C7, amended — in every run of `run_all_checks`, the critical-issues
list is exactly the failing checks' rule codes and details, and the
recommendations are appended per run (never per check): two when any
check failed plus one more when any check warned, and none when every
check passed or was skipped. -/
theorem run_all_checks_issues_and_recommendations (e : QCEngine)
    (channel_data : List (ℕ × List ℚ × List ℚ)) (expected actual : ℤ)
    (sc : Option (List (ℕ × ℕ))) (dt : ℚ) :
    (e.run_all_checks channel_data expected actual sc dt).critical_issues
      = (((e.run_all_checks channel_data expected actual sc dt).checks.filter
          (fun c => c.status == .fail)).map fmtIssue) ∧
    (e.run_all_checks channel_data expected actual sc dt).recommendations.length
      = (if 0 < (e.run_all_checks channel_data expected actual sc dt).failed_checks then 2 else 0)
        + (if 0 < (e.run_all_checks channel_data expected actual sc dt).warning_checks
           then 1 else 0) := by
  obtain ⟨hcheck, hfc, hwc, hcrit, hrecs⟩ := run_all_checks_spec e channel_data expected actual sc dt
  obtain ⟨_, hinv_crit, _, _⟩ := preSummary_inv e channel_data expected actual sc dt
  constructor
  · rw [hcrit, hcheck, hinv_crit]
  · rw [hrecs, hfc, hwc]
    split_ifs <;> simp

/-! ## Helper lemmas: sorting, medians, masks -/

theorem mem_insertSorted {x y : ℚ} {l : List ℚ} :
    y ∈ insertSorted x l ↔ y = x ∨ y ∈ l := by
  induction l with
  | nil => simp [insertSorted]
  | cons z zs ih =>
    by_cases h : x ≤ z <;> simp [insertSorted, h, ih] <;> tauto

theorem length_insertSorted (x : ℚ) (l : List ℚ) :
    (insertSorted x l).length = l.length + 1 := by
  induction l with
  | nil => rfl
  | cons z zs ih =>
    by_cases h : x ≤ z <;> simp [insertSorted, h, ih]

theorem mem_sortQ {y : ℚ} {l : List ℚ} : y ∈ sortQ l ↔ y ∈ l := by
  induction l with
  | nil => simp [sortQ]
  | cons z zs ih => simp [sortQ, mem_insertSorted] at *; tauto

theorem length_sortQ (l : List ℚ) : (sortQ l).length = l.length := by
  induction l with
  | nil => rfl
  | cons z zs ih => simp [sortQ, length_insertSorted] at *; omega

theorem npMedian_all_eq {l : List ℚ} {c : ℚ} (hne : l ≠ [])
    (h : ∀ x ∈ l, x = c) : npMedian l = c := by
  have hlen : 0 < l.length := List.length_pos.mpr hne
  have hs : ∀ i : ℕ, i < l.length → (sortQ l).getD i 0 = c := by
    intro i hi
    have hi' : i < (sortQ l).length := by rw [length_sortQ]; exact hi
    rw [List.getD_eq_getElem _ _ hi']
    exact h _ (mem_sortQ.mp (List.getElem_mem hi'))
  unfold npMedian
  have h0 : ¬ l.length = 0 := by omega
  simp only [h0, if_false]
  split_ifs with hodd
  · exact hs _ (by omega)
  · rw [hs _ (by omega), hs _ (by omega)]; ring

theorem calculate_mad_all_eq {l : List ℚ} {c : ℚ}
    (h : ∀ x ∈ l, x = c) : (Despiker.calculate_mad l).2 = 0 := by
  rcases eq_or_ne l [] with rfl | hne
  · simp [Despiker.calculate_mad, npMedian]
  · have hm : npMedian l = c := npMedian_all_eq hne h
    show npMedian (l.map (fun x => |x - npMedian l|)) = 0
    apply npMedian_all_eq
    · simp [hne]
    · intro x hx
      obtain ⟨y, hy, rfl⟩ := List.mem_map.mp hx
      rw [hm, h y hy]; simp

/-- The spike condition of `detect_spikes` is the MAD distance test:
`x < median − B ∨ x > median + B  ↔  B < |x − median|`. -/
theorem spike_cond_iff (x m B : ℚ) :
    (x < m - B ∨ x > m + B) ↔ B < |x - m| := by
  rw [lt_abs]
  constructor
  · rintro (h | h)
    · right; linarith
    · left; linarith
  · rintro (h | h)
    · right; linarith
    · left; linarith

theorem length_detect_spikes (d : Despiker) (values : List ℚ) :
    (d.detect_spikes values).length = values.length := by
  unfold Despiker.detect_spikes Despiker.detectGlobal Despiker.detectWindow
  cases d.window_size <;> dsimp only <;> [skip; simp]
  split_ifs <;> simp

theorem getD_replicate_false (n i : ℕ) :
    (List.replicate n false).getD i false = false := by
  rcases lt_or_ge i n with h | h
  · rw [List.getD_eq_getElem _ _ (by simpa using h)]
    simp
  · rw [List.getD_eq_default _ _ (by simpa using h)]

theorem any_replicate_false (n : ℕ) : (List.replicate n false).any id = false := by
  rw [List.any_eq_false]
  intro b hb
  simp [List.eq_of_mem_replicate hb]

/-- When detection flags nothing, `despike` returns the input untouched
with zero spike statistics. -/
theorem despike_of_mask_false (d : Despiker) (ts values : List ℚ)
    (h : d.detect_spikes values = List.replicate values.length false) :
    d.despike ts values = .ok
      { original := values, cleaned := values.map some,
        spike_mask := List.replicate values.length false,
        spike_count := 0, spike_pct := 0, spike_indices := [] } := by
  have hrep : d.replace_spikes ts values (List.replicate values.length false)
      = .ok (values.map some) := by
    unfold Despiker.replace_spikes
    have hany : ¬ ((List.replicate values.length false).any id = true) := by
      simp [any_replicate_false]
    rw [if_pos hany]
  have hidx : (List.range (List.replicate values.length false).length).filter
      (fun i => (List.replicate values.length false).getD i false) = [] := by
    rw [List.filter_eq_nil_iff]
    intro i _
    simp [getD_replicate_false]
  unfold Despiker.despike
  rw [h]
  dsimp only
  rw [hrep]
  simp [hidx]

theorem calculate_mad_eq (data : List ℚ) :
    Despiker.calculate_mad data
      = (npMedian data, npMedian (data.map (fun x => |x - npMedian data|))) := rfl

theorem detectGlobal_getD (d : Despiker) (values : List ℚ) (i : ℕ)
    (hmad : (Despiker.calculate_mad values).2 ≠ 0) (hi : i < values.length) :
    ((d.detectGlobal values).getD i false = true
      ↔ d.threshold * (Despiker.calculate_mad values).2 * MAD_SCALE
          < |values.getD i 0 - npMedian values|) := by
  rw [calculate_mad_eq] at hmad ⊢
  simp only at hmad
  unfold Despiker.detectGlobal
  rw [calculate_mad_eq]
  dsimp only
  rw [if_neg hmad]
  have h1 : ((values.map (fun x =>
      decide (x < npMedian values
          - d.threshold * npMedian (values.map (fun x => |x - npMedian values|)) * MAD_SCALE
        ∨ x > npMedian values
          + d.threshold * npMedian (values.map (fun x => |x - npMedian values|)) * MAD_SCALE))).getD
        i false)
      = decide (values.getD i 0 < npMedian values
          - d.threshold * npMedian (values.map (fun x => |x - npMedian values|)) * MAD_SCALE
        ∨ values.getD i 0 > npMedian values
          + d.threshold * npMedian (values.map (fun x => |x - npMedian values|)) * MAD_SCALE) := by
    rw [List.getD_eq_getElem _ _ (by simpa using hi), List.getElem_map,
      List.getD_eq_getElem _ _ hi]
  rw [h1, decide_eq_true_eq, spike_cond_iff]

/-- C3 — In global mode (the despiker's default) with nonzero MAD, index
`i` is flagged as a spike iff `|values[i] − median| > threshold·MAD·1.4826`;
in particular a deviation exactly equal to the bound is not flagged. -/
theorem detect_spikes_flags_iff (d : Despiker) (values : List ℚ) (i : ℕ)
    (hw : d.window_size = none)
    (hmad : (Despiker.calculate_mad values).2 ≠ 0)
    (hi : i < values.length) :
    ((d.detect_spikes values).getD i false = true
      ↔ d.threshold * (Despiker.calculate_mad values).2 * MAD_SCALE
          < |values.getD i 0 - npMedian values|) := by
  unfold Despiker.detect_spikes
  rw [hw]
  exact detectGlobal_getD d values i hmad hi

/-- Witness for C3 at `values = [0,1,2]`, `i = 2`, the default despiker. -/
theorem detect_spikes_flags_iff_witness :
    ({} : Despiker).window_size = none ∧
    (Despiker.calculate_mad [0, 1, 2]).2 ≠ 0 ∧
    (2 : ℕ) < ([0, 1, 2] : List ℚ).length ∧
    ((({} : Despiker).detect_spikes [0, 1, 2]).getD 2 false = true
      ↔ ({} : Despiker).threshold * (Despiker.calculate_mad [0, 1, 2]).2 * MAD_SCALE
          < |([0, 1, 2] : List ℚ).getD 2 0 - npMedian [0, 1, 2]|) := by
  have hmad : (Despiker.calculate_mad ([0, 1, 2] : List ℚ)).2 ≠ 0 := by
    rw [calculate_mad_eq]
    norm_num [npMedian, sortQ, insertSorted, abs_of_nonneg, abs_of_nonpos]
  exact ⟨rfl, hmad, by norm_num,
    detect_spikes_flags_iff {} [0, 1, 2] 2 rfl hmad (by norm_num)⟩

set_option maxHeartbeats 1000000 in
/-- C4, counterexample — `[0,0,0,0,1,2]` has global MAD 0, yet in
sliding-window mode (window 2, threshold 0.5) `despike` flags index 5:
`spike_count = 1`, not 0. -/
theorem despike_window_flags_despite_global_mad_zero :
    (Despiker.calculate_mad [0, 0, 0, 0, 1, 2]).2 = 0 ∧
    ((Despiker.mk (1 / 2) (some 2) "interpolate").despike [0, 1, 2, 3, 4, 5]
        [0, 0, 0, 0, 1, 2]).map (fun r => r.spike_count) = .ok 1 := by
  have mad2 : Despiker.calculate_mad [(0 : ℚ), 0] = (0, 0) := by
    rw [calculate_mad_eq]
    norm_num [npMedian, sortQ, insertSorted, abs_of_nonneg, abs_of_nonpos]
  have mad3 : Despiker.calculate_mad [(0 : ℚ), 0, 0] = (0, 0) := by
    rw [calculate_mad_eq]
    norm_num [npMedian, sortQ, insertSorted, abs_of_nonneg, abs_of_nonpos]
  have mad31 : Despiker.calculate_mad [(0 : ℚ), 0, 1] = (0, 0) := by
    rw [calculate_mad_eq]
    norm_num [npMedian, sortQ, insertSorted, abs_of_nonneg, abs_of_nonpos]
  have mad012 : Despiker.calculate_mad [(0 : ℚ), 1, 2] = (1, 1) := by
    rw [calculate_mad_eq]
    norm_num [npMedian, sortQ, insertSorted, abs_of_nonneg, abs_of_nonpos]
  have mad12 : Despiker.calculate_mad [(1 : ℚ), 2] = (3 / 2, 1 / 2) := by
    rw [calculate_mad_eq]
    norm_num [npMedian, sortQ, insertSorted, abs_of_nonneg, abs_of_nonpos]
  have D : Despiker.mk (1 / 2) (some 2) "interpolate" = ⟨1 / 2, some 2, "interpolate"⟩ := rfl
  have f0 : (Despiker.mk (1 / 2) (some 2) "interpolate").windowFlag 2 [0, 0, 0, 0, 1, 2] 0
      = false := by
    norm_num [Despiker.windowFlag, mad2, mad3, mad31, mad012, mad12]
  have f1 : (Despiker.mk (1 / 2) (some 2) "interpolate").windowFlag 2 [0, 0, 0, 0, 1, 2] 1
      = false := by
    norm_num [Despiker.windowFlag, mad2, mad3, mad31, mad012, mad12]
  have f2 : (Despiker.mk (1 / 2) (some 2) "interpolate").windowFlag 2 [0, 0, 0, 0, 1, 2] 2
      = false := by
    norm_num [Despiker.windowFlag, mad2, mad3, mad31, mad012, mad12]
  have f3 : (Despiker.mk (1 / 2) (some 2) "interpolate").windowFlag 2 [0, 0, 0, 0, 1, 2] 3
      = false := by
    norm_num [Despiker.windowFlag, mad2, mad3, mad31, mad012, mad12]
  have f4 : (Despiker.mk (1 / 2) (some 2) "interpolate").windowFlag 2 [0, 0, 0, 0, 1, 2] 4
      = false := by
    norm_num [Despiker.windowFlag, mad2, mad3, mad31, mad012, mad12, MAD_SCALE,
      List.getD_cons_zero, List.getD_cons_succ]
  have f5 : (Despiker.mk (1 / 2) (some 2) "interpolate").windowFlag 2 [0, 0, 0, 0, 1, 2] 5
      = true := by
    norm_num [Despiker.windowFlag, mad2, mad3, mad31, mad012, mad12, MAD_SCALE,
      List.getD_cons_zero, List.getD_cons_succ]
  have hmask : (Despiker.mk (1 / 2) (some 2) "interpolate").detect_spikes [0, 0, 0, 0, 1, 2]
      = [false, false, false, false, false, true] := by
    show (Despiker.mk (1 / 2) (some 2) "interpolate").detectWindow 2 [0, 0, 0, 0, 1, 2]
        = [false, false, false, false, false, true]
    unfold Despiker.detectWindow
    rw [show List.range ([0, 0, 0, 0, 1, 2] : List ℚ).length = [0, 1, 2, 3, 4, 5] by decide]
    simp only [List.map_cons, List.map_nil]
    rw [f0, f1, f2, f3, f4, f5]
  have e1 : ("interpolate" = "nan") = False := by simp
  have e2 : ("interpolate" = "median") = False := by simp
  have hrepl : (Despiker.mk (1 / 2) (some 2) "interpolate").replace_spikes
      [0, 1, 2, 3, 4, 5] [0, 0, 0, 0, 1, 2] [false, false, false, false, false, true]
      = .ok [some 0, some 0, some 0, some 0, some 1, some 1] := by
    norm_num [Despiker.replace_spikes, npInterp, e1, e2,
      List.filterMap_cons, List.filterMap_nil]
  constructor
  · rw [calculate_mad_eq]
    norm_num [npMedian, sortQ, insertSorted, abs_of_nonneg, abs_of_nonpos]
  · unfold Despiker.despike
    rw [hmask]
    dsimp only
    rw [hrepl]
    norm_num [List.range_succ, List.getD_cons_zero, List.getD_cons_succ,
      Except.map, Except.bind]

theorem detectGlobal_mad_zero (d : Despiker) (values : List ℚ)
    (h : (Despiker.calculate_mad values).2 = 0) :
    d.detectGlobal values = List.replicate values.length false := by
  rw [calculate_mad_eq] at h
  simp only at h
  unfold Despiker.detectGlobal
  rw [calculate_mad_eq]
  dsimp only
  rw [if_pos h]

theorem windowFlag_replicate (d : Despiker) (w n : ℕ) (c : ℚ) (i : ℕ) :
    d.windowFlag w (List.replicate n c) i = false := by
  unfold Despiker.windowFlag
  dsimp only
  have hmad : (Despiker.calculate_mad
      (((List.replicate n c).drop (i - w / 2)).take
        (min (List.replicate n c).length (i + w / 2 + 1) - (i - w / 2)))).2 = 0 := by
    apply calculate_mad_all_eq
    intro x hx
    exact List.eq_of_mem_replicate (List.mem_of_mem_drop (List.mem_of_mem_take hx))
  rcases hcm : Despiker.calculate_mad
      (((List.replicate n c).drop (i - w / 2)).take
        (min (List.replicate n c).length (i + w / 2 + 1) - (i - w / 2))) with ⟨med, mad⟩
  have hm0 : mad = 0 := by rw [hcm] at hmad; exact hmad
  simp [hm0]

theorem detectWindow_replicate (d : Despiker) (w n : ℕ) (c : ℚ) :
    d.detectWindow w (List.replicate n c) = List.replicate n false := by
  unfold Despiker.detectWindow
  rw [List.eq_replicate_iff]
  constructor
  · simp
  · intro b hb
    obtain ⟨i, _, rfl⟩ := List.mem_map.mp hb
    exact windowFlag_replicate d w n c i

/-- C4, amended — a despiker in global mode flags zero spikes (all-false
mask, count 0, percentage 0) for every threshold whenever the array's MAD
is 0; in sliding-window mode the same holds for every constant (flat)
array — but, as the counterexample shows, not for every array whose
global MAD is 0. -/
theorem despike_mad_zero_no_spikes :
    (∀ (d : Despiker) (ts values : List ℚ), d.window_size = none →
        (Despiker.calculate_mad values).2 = 0 →
        d.despike ts values = .ok
          { original := values, cleaned := values.map some,
            spike_mask := List.replicate values.length false,
            spike_count := 0, spike_pct := 0, spike_indices := [] }) ∧
    (∀ (d : Despiker) (w : ℕ) (ts : List ℚ) (n : ℕ) (c : ℚ), d.window_size = some w →
        d.despike ts (List.replicate n c) = .ok
          { original := List.replicate n c, cleaned := (List.replicate n c).map some,
            spike_mask := List.replicate (List.replicate n c).length false,
            spike_count := 0, spike_pct := 0, spike_indices := [] }) := by
  constructor
  · intro d ts values hw h
    apply despike_of_mask_false
    unfold Despiker.detect_spikes
    rw [hw]
    exact detectGlobal_mad_zero d values h
  · intro d w ts n c hw
    apply despike_of_mask_false
    unfold Despiker.detect_spikes
    rw [hw]
    dsimp only
    rw [detectWindow_replicate d w n c, List.length_replicate]

/-- Witness for C4 at a flat signal `[3,3]` (global mode) and a flat
replicate array (window mode). -/
theorem despike_mad_zero_no_spikes_witness :
    ({} : Despiker).despike [0, 1] [3, 3] = .ok
      { original := [3, 3], cleaned := ([3, 3] : List ℚ).map some,
        spike_mask := List.replicate ([3, 3] : List ℚ).length false,
        spike_count := 0, spike_pct := 0, spike_indices := [] } ∧
    (Despiker.mk (7 / 2) (some 3) "interpolate").despike [0, 1] (List.replicate 2 (5 : ℚ))
      = .ok
      { original := List.replicate 2 (5 : ℚ),
        cleaned := (List.replicate 2 (5 : ℚ)).map some,
        spike_mask := List.replicate (List.replicate 2 (5 : ℚ)).length false,
        spike_count := 0, spike_pct := 0, spike_indices := [] } := by
  constructor
  · apply despike_mad_zero_no_spikes.1 ({} : Despiker) [0, 1] [3, 3] rfl
    apply calculate_mad_all_eq (c := 3)
    intro x hx
    simpa using hx
  · exact despike_mad_zero_no_spikes.2 _ 3 [0, 1] 2 5 rfl

/-- C9, amended — a second `despike` pass (global mode) on the cleaned
output of a first pass flags no further spikes PROVIDED the cleaned series
is itself clean: every point within `threshold·MAD·1.4826` of its own
median.  The counterexample shows the unconditional claim is false. -/
theorem despike_second_pass_clean (d : Despiker) (ts vs : List ℚ)
    (r : DespikeResult) (c : List ℚ)
    (hw : d.window_size = none)
    (h1 : d.despike ts vs = .ok r)
    (hc : r.cleaned = c.map some)
    (hbound : ∀ x ∈ c, |x - npMedian c|
        ≤ d.threshold * (Despiker.calculate_mad c).2 * MAD_SCALE) :
    d.despike ts c = .ok
      { original := c, cleaned := c.map some,
        spike_mask := List.replicate c.length false,
        spike_count := 0, spike_pct := 0, spike_indices := [] } := by
  apply despike_of_mask_false
  unfold Despiker.detect_spikes
  rw [hw]
  dsimp only
  by_cases hmad : (Despiker.calculate_mad c).2 = 0
  · exact detectGlobal_mad_zero d c hmad
  · have hmad' : npMedian (c.map (fun x => |x - npMedian c|)) ≠ 0 := by
      rw [calculate_mad_eq] at hmad; simpa using hmad
    unfold Despiker.detectGlobal
    rw [calculate_mad_eq]
    dsimp only
    rw [if_neg hmad']
    rw [List.eq_replicate_iff]
    refine ⟨by simp, ?_⟩
    intro b hb
    obtain ⟨x, hx, rfl⟩ := List.mem_map.mp hb
    have hb' := hbound x hx
    rw [calculate_mad_eq] at hb'
    simp only at hb'
    rw [decide_eq_false_iff_not]
    rw [spike_cond_iff]
    exact not_lt.mpr hb'

/-- Witness for C9 on the flat series `[0,0,0]`, which despikes to
itself. -/
theorem despike_second_pass_clean_witness :
    ({} : Despiker).despike [0, 1, 2] [0, 0, 0] = .ok
      { original := [0, 0, 0], cleaned := ([0, 0, 0] : List ℚ).map some,
        spike_mask := List.replicate ([0, 0, 0] : List ℚ).length false,
        spike_count := 0, spike_pct := 0, spike_indices := [] } := by
  have hmad : (Despiker.calculate_mad ([0, 0, 0] : List ℚ)).2 = 0 := by
    rw [calculate_mad_eq]
    norm_num [npMedian, sortQ, insertSorted, abs_of_nonneg, abs_of_nonpos]
  have h1 : ({} : Despiker).despike [0, 1, 2] [0, 0, 0] = .ok
      { original := [0, 0, 0], cleaned := ([0, 0, 0] : List ℚ).map some,
        spike_mask := List.replicate ([0, 0, 0] : List ℚ).length false,
        spike_count := 0, spike_pct := 0, spike_indices := [] } := by
    apply despike_of_mask_false
    unfold Despiker.detect_spikes
    exact detectGlobal_mad_zero {} [0, 0, 0] hmad
  exact despike_second_pass_clean {} [0, 1, 2] [0, 0, 0] _ [0, 0, 0] rfl h1 rfl
    (by
      intro x hx
      have hx' : x = 0 := by simpa using hx
      rw [hx', hmad]
      norm_num [npMedian, sortQ, insertSorted])

set_option maxHeartbeats 2000000 in
/-- C9, counterexample — despiking
`[10, 1000, 10.2, 1000, 10, 1000, 10.2, 1000, 16]` with the default
despiker replaces the four `1000` spikes by interpolants, producing
`[10, 10.1, 10.2, 10.1, 10, 10.1, 10.2, 13.1, 16]`; despiking that
cleaned output AGAIN flags two further spikes (indices 7 and 8), so a
second pass is not a no-op. -/
theorem despike_not_idempotent :
    (({} : Despiker).despike [0, 1, 2, 3, 4, 5, 6, 7, 8]
        [10, 1000, 51 / 5, 1000, 10, 1000, 51 / 5, 1000, 16]).map (fun r => r.cleaned)
      = .ok ([10, 101 / 10, 51 / 5, 101 / 10, 10, 101 / 10, 51 / 5, 131 / 10, 16].map some) ∧
    (({} : Despiker).despike [0, 1, 2, 3, 4, 5, 6, 7, 8]
        [10, 101 / 10, 51 / 5, 101 / 10, 10, 101 / 10, 51 / 5, 131 / 10, 16]).map
        (fun r => r.spike_count)
      = .ok 2 := by
  have e1 : ("interpolate" = "nan") = False := by simp
  have e2 : ("interpolate" = "median") = False := by simp
  have hm1 : Despiker.calculate_mad [10, 1000, 51 / 5, 1000, 10, 1000, 51 / 5, 1000, 16]
      = (16, 6) := by
    rw [calculate_mad_eq]
    norm_num [npMedian, sortQ, insertSorted, abs_of_nonneg, abs_of_nonpos]
  have hmask1 : ({} : Despiker).detect_spikes
      [10, 1000, 51 / 5, 1000, 10, 1000, 51 / 5, 1000, 16]
      = [false, true, false, true, false, true, false, true, false] := by
    show ({} : Despiker).detectGlobal [10, 1000, 51 / 5, 1000, 10, 1000, 51 / 5, 1000, 16]
        = [false, true, false, true, false, true, false, true, false]
    unfold Despiker.detectGlobal
    rw [hm1]
    norm_num [MAD_SCALE]
  have hrepl1 : ({} : Despiker).replace_spikes [0, 1, 2, 3, 4, 5, 6, 7, 8]
      [10, 1000, 51 / 5, 1000, 10, 1000, 51 / 5, 1000, 16]
      [false, true, false, true, false, true, false, true, false]
      = .ok [some 10, some (101 / 10), some (51 / 5), some (101 / 10), some 10,
             some (101 / 10), some (51 / 5), some (131 / 10), some 16] := by
    norm_num [Despiker.replace_spikes, npInterp, e1, e2,
      List.filterMap_cons, List.filterMap_nil]
  have hm2 : Despiker.calculate_mad
      [10, 101 / 10, 51 / 5, 101 / 10, 10, 101 / 10, 51 / 5, 131 / 10, 16]
      = (101 / 10, 1 / 10) := by
    rw [calculate_mad_eq]
    norm_num [npMedian, sortQ, insertSorted, abs_of_nonneg, abs_of_nonpos]
  have hmask2 : ({} : Despiker).detect_spikes
      [10, 101 / 10, 51 / 5, 101 / 10, 10, 101 / 10, 51 / 5, 131 / 10, 16]
      = [false, false, false, false, false, false, false, true, true] := by
    show ({} : Despiker).detectGlobal
        [10, 101 / 10, 51 / 5, 101 / 10, 10, 101 / 10, 51 / 5, 131 / 10, 16]
        = [false, false, false, false, false, false, false, true, true]
    unfold Despiker.detectGlobal
    rw [hm2]
    norm_num [MAD_SCALE]
  have hrepl2 : ({} : Despiker).replace_spikes [0, 1, 2, 3, 4, 5, 6, 7, 8]
      [10, 101 / 10, 51 / 5, 101 / 10, 10, 101 / 10, 51 / 5, 131 / 10, 16]
      [false, false, false, false, false, false, false, true, true]
      = .ok [some 10, some (101 / 10), some (51 / 5), some (101 / 10), some 10,
             some (101 / 10), some (51 / 5), some (51 / 5), some (51 / 5)] := by
    norm_num [Despiker.replace_spikes, npInterp, e1, e2,
      List.filterMap_cons, List.filterMap_nil]
  constructor
  · unfold Despiker.despike
    rw [hmask1]
    dsimp only
    rw [hrepl1]
    norm_num [Except.map, Except.bind]
  · unfold Despiker.despike
    rw [hmask2]
    dsimp only
    rw [hrepl2]
    norm_num [Except.map, Except.bind, List.range_succ,
      List.getD_cons_zero, List.getD_cons_succ]

theorem getD_zipWith {α β γ : Type} (f : α → β → γ) (l1 : List α) (l2 : List β)
    (i : ℕ) (d1 : α) (d2 : β) (d3 : γ) (h1 : i < l1.length) (h2 : i < l2.length) :
    (List.zipWith f l1 l2).getD i d3 = f (l1.getD i d1) (l2.getD i d2) := by
  induction l1 generalizing l2 i with
  | nil => simp at h1
  | cons a l1 ih =>
    cases l2 with
    | nil => simp at h2
    | cons b l2 =>
      cases i with
      | zero => simp
      | succ i =>
        simpa using ih l2 i (by simpa using h1) (by simpa using h2)

theorem getD_map_some (l : List ℚ) (i : ℕ) (h : i < l.length) :
    (l.map some).getD i none = some (l.getD i 0) := by
  rw [List.getD_eq_getElem _ _ (by simpa using h), List.getElem_map,
    List.getD_eq_getElem _ _ h]

/-- `replace_spikes` never changes the length and only touches flagged
indices, for each of the three replacement policies. -/
theorem replace_spikes_frame (d : Despiker) (ts vs : List ℚ) (mask : List Bool)
    (hm : d.replace_method = "interpolate" ∨ d.replace_method = "median"
      ∨ d.replace_method = "nan")
    (hlen : ts.length = vs.length) (hmlen : mask.length = vs.length) :
    ∃ cl, d.replace_spikes ts vs mask = .ok cl ∧ cl.length = vs.length ∧
      ∀ i, i < vs.length → mask.getD i false = false →
        cl.getD i none = some (vs.getD i 0) := by
  unfold Despiker.replace_spikes
  by_cases hany : mask.any id = true
  · rw [if_neg (by simpa using hany)]
    rcases hm with hm | hm | hm <;> rw [hm]
    · -- interpolate
      rw [if_neg (by simp), if_neg (by simp), if_pos rfl]
      dsimp only
      split_ifs with hgood
      · refine ⟨_, rfl, ?_, ?_⟩
        · simp [hmlen]
        · intro i hi hmi
          rw [getD_zipWith _ vs mask i 0 false none hi (by omega), hmi]
          simp
      · refine ⟨_, rfl, ?_, ?_⟩
        · simp [hmlen, hlen]
        · intro i hi hmi
          rw [getD_zipWith _ (ts.zip vs) mask i (0, 0) false none
            (by simp [hlen, hmlen]; omega) (by omega), hmi]
          simp only [Bool.false_eq_true, if_false]
          rw [show (ts.zip vs).getD i (0, 0)
              = (ts.getD i 0, vs.getD i 0) from
            getD_zipWith Prod.mk ts vs i 0 0 (0, 0) (by omega) hi]
    · -- median
      rw [if_neg (by simp), if_pos rfl]
      refine ⟨_, rfl, ?_, ?_⟩
      · simp [hmlen]
      · intro i hi hmi
        rw [getD_zipWith _ vs mask i 0 false none hi (by omega), hmi]
        simp
    · -- nan
      rw [if_pos rfl]
      refine ⟨_, rfl, ?_, ?_⟩
      · simp [hmlen]
      · intro i hi hmi
        rw [getD_zipWith _ vs mask i 0 false none hi (by omega), hmi]
        simp
  · rw [if_pos (by simpa using hany)]
    refine ⟨_, rfl, by simp, ?_⟩
    intro i hi _
    exact getD_map_some vs i hi

/-- C10 — for each replacement policy, `despike` returns a cleaned array
of the input's length that agrees with the input at every index the spike
mask does not flag; only flagged indices are modified. -/
theorem despike_frame (d : Despiker) (ts vs : List ℚ)
    (hm : d.replace_method = "interpolate" ∨ d.replace_method = "median"
      ∨ d.replace_method = "nan")
    (hlen : ts.length = vs.length) :
    ∃ r, d.despike ts vs = .ok r ∧
      r.spike_mask = d.detect_spikes vs ∧
      r.cleaned.length = vs.length ∧
      ∀ i, i < vs.length → r.spike_mask.getD i false = false →
        r.cleaned.getD i none = some (vs.getD i 0) := by
  obtain ⟨cl, hcl, hcllen, hclget⟩ :=
    replace_spikes_frame d ts vs (d.detect_spikes vs) hm hlen
      (length_detect_spikes d vs)
  refine ⟨{ original := vs, cleaned := cl, spike_mask := d.detect_spikes vs,
            spike_count := ((List.range (d.detect_spikes vs).length).filter
              (fun i => (d.detect_spikes vs).getD i false)).length,
            spike_pct := (if vs.length > 0 then
              100 * ((((List.range (d.detect_spikes vs).length).filter
                (fun i => (d.detect_spikes vs).getD i false)).length : ℕ) : ℚ)
                / (vs.length : ℚ) else 0),
            spike_indices := (List.range (d.detect_spikes vs).length).filter
              (fun i => (d.detect_spikes vs).getD i false) }, ?_, rfl, hcllen, hclget⟩
  unfold Despiker.despike
  dsimp only
  rw [hcl]
  rfl

/-- Witness for C10 at the default despiker on `ts = [0,1]`,
`vs = [5,6]`. -/
theorem despike_frame_witness :
    ∃ r, ({} : Despiker).despike [0, 1] [5, 6] = .ok r ∧
      r.spike_mask = ({} : Despiker).detect_spikes [5, 6] ∧
      r.cleaned.length = ([5, 6] : List ℚ).length ∧
      ∀ i, i < ([5, 6] : List ℚ).length → r.spike_mask.getD i false = false →
        r.cleaned.getD i none = some (([5, 6] : List ℚ).getD i 0) :=
  despike_frame {} [0, 1] [5, 6] (Or.inl rfl) rfl

/-! ## C8: configuration errors raised at point of use -/

theorem pyInt_nonneg {x : ℚ} (h : 0 ≤ x) : 0 ≤ pyInt x := by
  unfold pyInt
  exact Int.tdiv_nonneg (Rat.num_nonneg.mpr h) (by positivity)

/-- C8, counterexample — an unknown interpolation method does NOT raise
when fewer than 2 points are supplied (the guard returns first), and an
unknown replacement method does NOT raise when no spike is flagged (the
copy returns first). -/
theorem unknown_method_not_always_raised :
    (Resampler.mk 100).resample_channel (fun _ _ => 0) [] [] "bogus" = .ok ([], []) ∧
    (Despiker.mk (7 / 2) none "bogus").replace_spikes [0] [5] [false] = .ok [some 5] := by
  constructor
  · rfl
  · unfold Despiker.replace_spikes
    rw [if_pos (by simp)]
    rfl

/-- C8, amended — the configuration errors are raised exactly when the
method is consulted: `resample_channel` raises on an unknown interpolation
method whenever interpolation is attempted (at least 2 points, ordered
time range), `replace_spikes` raises on an unknown replacement method
whenever at least one spike is flagged; data-insufficiency conditions
(fewer than 2 points; expected count 0) return a pass-through result or a
Skip check instead of aborting. -/
theorem configuration_errors_at_point_of_use :
    (∀ (r : Resampler) (kernel : List (ℚ × ℚ) → ℚ → ℚ) (ts vs : List ℚ) (m : String),
      2 ≤ ts.length → ts.getD 0 0 ≤ (ts.getLast?).getD 0 → 0 ≤ r.target_hz →
      m ≠ "linear" → m ≠ "cubic" → m ≠ "nearest" →
      r.resample_channel kernel ts vs m
        = .error ("Unknown interpolation method: " ++ m)) ∧
    (∀ (d : Despiker) (ts vs : List ℚ) (mask : List Bool),
      d.replace_method ≠ "nan" → d.replace_method ≠ "median" →
      d.replace_method ≠ "interpolate" → mask.any id = true →
      d.replace_spikes ts vs mask
        = .error ("Unknown replace method: " ++ d.replace_method)) ∧
    (∀ (r : Resampler) (kernel : List (ℚ × ℚ) → ℚ → ℚ) (ts vs : List ℚ) (m : String),
      ts.length < 2 → r.resample_channel kernel ts vs m = .ok (ts, vs)) ∧
    (∀ (e : QCEngine) (ac : ℤ), (e.check_missing_samples 0 ac).status = .skip) := by
  refine ⟨?_, ?_, ?_, ?_⟩
  · intro r kernel ts vs m hlen hord hhz h1 h2 h3
    unfold Resampler.resample_channel
    rw [if_neg (by omega)]
    dsimp only
    have hpos : (0 : ℚ) ≤ ((ts.getLast?).getD 0 - ts.getD 0 0) * r.target_hz :=
      mul_nonneg (by linarith) hhz
    have hn : ¬ (pyInt (((ts.getLast?).getD 0 - ts.getD 0 0) * r.target_hz) + 1 < 0) := by
      have hge := pyInt_nonneg hpos
      omega
    unfold npLinspace
    rw [if_neg hn]
    simp only [h1, h2, h3]
    rfl
  · intro d ts vs mask h1 h2 h3 hany
    unfold Despiker.replace_spikes
    rw [if_neg (by simpa using hany), if_neg h1, if_neg h2, if_neg h3]
  · intro r kernel ts vs m hlen
    unfold Resampler.resample_channel
    rw [if_pos hlen]
  · intro e ac
    unfold QCEngine.check_missing_samples
    rw [if_pos rfl]

/-- Witness for C8 at concrete inputs: two points with a bogus
interpolation method, a flagged mask with a bogus replacement method, a
single-point pass-through, and a zero expected count. -/
theorem configuration_errors_at_point_of_use_witness :
    ((Resampler.mk 100).resample_channel (fun _ _ => 0) [0, 1] [5, 6] "bogus"
        = .error ("Unknown interpolation method: " ++ "bogus")) ∧
    ((Despiker.mk (7 / 2) none "bogus").replace_spikes [0] [5] [true]
        = .error ("Unknown replace method: "
            ++ (Despiker.mk (7 / 2) none "bogus").replace_method)) ∧
    ((Resampler.mk 100).resample_channel (fun _ _ => 0) [0] [5] "bogus" = .ok ([0], [5])) ∧
    ((({} : QCEngine).check_missing_samples 0 7).status = .skip) :=
  ⟨configuration_errors_at_point_of_use.1 (Resampler.mk 100) (fun _ _ => 0) [0, 1] [5, 6]
      "bogus" (by norm_num) (by norm_num) (by norm_num)
      (by simp) (by simp) (by simp),
   configuration_errors_at_point_of_use.2.1 (Despiker.mk (7 / 2) none "bogus") [0] [5] [true]
      (by simp) (by simp) (by simp) (by simp),
   configuration_errors_at_point_of_use.2.2.1 (Resampler.mk 100) (fun _ _ => 0) [0] [5]
      "bogus" (by norm_num),
   configuration_errors_at_point_of_use.2.2.2 {} 7⟩

/-! ## C2: `align_channels` on temporally disjoint channels -/

/-- C2, code evaluated at the failing input — two resampled channels with
disjoint time ranges ([0,1] and [3,4], 100 Hz) drive
`n_samples = int((1−3)·100)+1 = −199` into `np.linspace`, which raises
`ValueError` instead of producing the empty dataset the spec promises. -/
theorem align_channels_disjoint_raises :
    (Resampler.mk 100).align_channels
      [(1, ([0, 1], [0, 0])), (2, ([3, 4], [0, 0]))]
      = .error "ValueError: Number of samples must be non-negative" := by
  unfold Resampler.align_channels
  rw [if_neg (by simp)]
  simp only [List.mapM_cons, List.mapM_nil, List.getLast?]
  norm_num [Except.bind, bind, pure, Except.pure, List.max?, List.min?,
    npLinspace, pyInt, max_def, min_def]

/-! ## C5: invalid-denominator policy of AeroCalculator -/

theorem getD_map {α β : Type} (f : α → β) (l : List α) (i : ℕ) (d : α) (d' : β)
    (h : i < l.length) : (l.map f).getD i d' = f (l.getD i d) := by
  rw [List.getD_eq_getElem _ _ (by simpa using h), List.getElem_map,
    List.getD_eq_getElem _ _ h]

theorem optOp_none_right (f : ℚ → ℚ → ℚ) (a : Option ℚ) : optOp f a none = none := by
  cases a <;> rfl

theorem wherePos_none : wherePos none = none := rfl

theorem wherePos_nonpos {v : ℚ} (h : v ≤ 0) : wherePos (some v) = none := by
  show (if v > 0 then some v else none) = none
  rw [if_neg (not_lt.mpr h)]

theorem filterMap_id_map_some (xs : List ℚ) : (xs.map some).filterMap id = xs := by
  induction xs with
  | nil => rfl
  | cons x xs ih => simp [ih]

/-- C5 — every aero computation maps a point whose denominator is
non-positive or absent (NaN) to the invalid marker, with no exception
possible (the model is total); `nanmean`/`nanvar` (the square of
`nanstd`) ignore invalid points — they coincide with the statistics of
the valid entries alone — and an all-invalid series aggregates to the
invalid marker. -/
theorem aero_invalid_denominator_policy :
    (∀ (c : AeroCalculator) (lift drag side q : List (Option ℚ)) (i : ℕ),
      i < lift.length → i < drag.length → i < side.length → i < q.length →
      (q.getD i none = none
        ∨ ∃ v, q.getD i none = some v ∧ v * c.reference_area ≤ 0) →
      (c.calculate_coefficients lift drag side q).1.getD i none = none ∧
      (c.calculate_coefficients lift drag side q).2.1.getD i none = none ∧
      (c.calculate_coefficients lift drag side q).2.2.getD i none = none) ∧
    (∀ (c : AeroCalculator) (pm rm ym q : List (Option ℚ)) (i : ℕ),
      i < pm.length → i < rm.length → i < ym.length → i < q.length →
      (q.getD i none = none
        ∨ ∃ v, q.getD i none = some v ∧ v * c.reference_area * c.wheelbase ≤ 0) →
      (c.calculate_moments pm rm ym q).1.getD i none = none ∧
      (c.calculate_moments pm rm ym q).2.1.getD i none = none ∧
      (c.calculate_moments pm rm ym q).2.2.getD i none = none) ∧
    (∀ (c : AeroCalculator) (Cl Cd : List (Option ℚ)) (i : ℕ),
      i < Cl.length → i < Cd.length →
      (Cd.getD i none = none ∨ ∃ v, Cd.getD i none = some v ∧ v ≤ 0) →
      (c.calculate_efficiency Cl Cd).getD i none = none) ∧
    (∀ (c : AeroCalculator) (front rear : List (Option ℚ)) (i : ℕ),
      i < front.length → i < rear.length →
      (optOp (· + ·) (front.getD i none) (rear.getD i none) = none
        ∨ ∃ v, optOp (· + ·) (front.getD i none) (rear.getD i none) = some v ∧ v ≤ 0) →
      (c.calculate_aero_balance front rear).getD i none = none) ∧
    (∀ l : List (Option ℚ),
      nanmean ((l.filterMap id).map some) = nanmean l ∧
      nanvar ((l.filterMap id).map some) = nanvar l) ∧
    (∀ l : List (Option ℚ), (∀ x ∈ l, x = none) →
      nanmean l = none ∧ nanvar l = none) := by
  have hden : ∀ (f : ℚ → ℚ) (q : List (Option ℚ)) (i : ℕ), i < q.length →
      (q.getD i none = none ∨ ∃ v, q.getD i none = some v ∧ f v ≤ 0) →
      ((q.map (Option.map f)).map wherePos).getD i none = none := by
    intro f q i hq hbad
    rw [getD_map wherePos _ i none none (by simpa using hq),
      getD_map (Option.map f) q i none none hq]
    rcases hbad with hnone | ⟨v, hv, hle⟩
    · rw [hnone]; rfl
    · rw [hv]
      exact wherePos_nonpos hle
  refine ⟨?_, ?_, ?_, ?_, ?_, ?_⟩
  · intro c lift drag side q i h1 h2 h3 h4 hbad
    have hlen : i < ((q.map (Option.map (· * c.reference_area))).map wherePos).length := by
      simpa using h4
    have hd := hden (· * c.reference_area) q i h4 hbad
    unfold AeroCalculator.calculate_coefficients
    dsimp only
    refine ⟨?_, ?_, ?_⟩ <;>
      rw [getD_zipWith _ _ _ i none none none (by assumption) hlen, hd,
        optOp_none_right]
  · intro c pm rm ym q i h1 h2 h3 h4 hbad
    have hlen : i < ((q.map (Option.map (· * c.reference_area * c.wheelbase))).map
        wherePos).length := by
      simpa using h4
    have hd := hden (· * c.reference_area * c.wheelbase) q i h4 hbad
    unfold AeroCalculator.calculate_moments
    dsimp only
    refine ⟨?_, ?_, ?_⟩ <;>
      rw [getD_zipWith _ _ _ i none none none (by assumption) hlen, hd,
        optOp_none_right]
  · intro c Cl Cd i h1 h2 hbad
    unfold AeroCalculator.calculate_efficiency
    dsimp only
    rw [getD_zipWith _ _ _ i none none none (by simpa using h1) (by simpa using h2),
      getD_map wherePos Cd i none none h2]
    rcases hbad with hnone | ⟨v, hv, hle⟩
    · rw [hnone, wherePos_none, optOp_none_right]
    · rw [hv, wherePos_nonpos hle, optOp_none_right]
  · intro c front rear i h1 h2 hbad
    unfold AeroCalculator.calculate_aero_balance
    dsimp only
    have hzlen : i < (front.zipWith (optOp (· + ·)) rear).length := by
      rw [List.length_zipWith]; omega
    rw [getD_zipWith _ _ _ i none none none (by simpa using h1) (by simpa using hzlen),
      getD_map wherePos _ i none none hzlen,
      getD_zipWith (optOp (· + ·)) front rear i none none none h1 h2]
    rcases hbad with hnone | ⟨v, hv, hle⟩
    · rw [hnone, wherePos_none, optOp_none_right]
    · rw [hv, wherePos_nonpos hle, optOp_none_right]
  · intro l
    constructor
    · unfold nanmean
      rw [filterMap_id_map_some]
    · unfold nanvar
      rw [filterMap_id_map_some]
  · intro l hall
    have hnil : l.filterMap id = [] := by
      rw [List.filterMap_eq_nil_iff]
      intro a ha
      rw [hall a ha]; rfl
    constructor
    · unfold nanmean
      rw [hnil]
      rfl
    · unfold nanvar
      rw [hnil]
      rfl

/-- Witness for C5 at concrete one-point series with zero / negative /
absent denominators and an all-invalid aggregate. -/
theorem aero_invalid_denominator_policy_witness :
    (({} : AeroCalculator).calculate_coefficients [some 1] [some 1] [some 1]
      [some 0]).1.getD 0 none = none ∧
    (({} : AeroCalculator).calculate_moments [some 1] [some 1] [some 1]
      [none]).1.getD 0 none = none ∧
    (({} : AeroCalculator).calculate_efficiency [some 1] [some 0]).getD 0 none = none ∧
    (({} : AeroCalculator).calculate_aero_balance [some (-1)] [some 0]).getD 0 none
      = none ∧
    nanmean [none, none] = none :=
  ⟨(aero_invalid_denominator_policy.1 {} [some 1] [some 1] [some 1] [some 0] 0
      (by norm_num) (by norm_num) (by norm_num) (by norm_num)
      (Or.inr ⟨0, rfl, by norm_num⟩)).1,
   (aero_invalid_denominator_policy.2.1 {} [some 1] [some 1] [some 1] [none] 0
      (by norm_num) (by norm_num) (by norm_num) (by norm_num) (Or.inl rfl)).1,
   aero_invalid_denominator_policy.2.2.1 {} [some 1] [some 0] 0
      (by norm_num) (by norm_num) (Or.inr ⟨0, rfl, le_refl 0⟩),
   aero_invalid_denominator_policy.2.2.2.1 {} [some (-1)] [some 0] 0
      (by norm_num) (by norm_num) (Or.inr ⟨-1 + 0, rfl, by norm_num⟩),
   (aero_invalid_denominator_policy.2.2.2.2.2 [none, none]
      (by intro x hx; simpa using hx)).1⟩

end Aerostream
